import Mathlib

/-!
Shallow embedding of the sqlite-job repository (src/sqlite_job/*.py):
a durable job queue backed by a relational store.  Python values, the
pickle codec, the Queue/Job tables and the operations of
`connections.py`, `db.py`, `settings.py` and `worker.py` are translated
into executable Lean definitions, and the claims about the system are
settled as theorems about those definitions.
-/

/-- The Python value domain carried by job payloads and results:
numbers, strings, booleans, None, tuples, lists and string-keyed dicts
(what the host serialization supports for this system). -/
inductive PyValue where
  | pynone
  | pybool (b : Bool)
  | pyint (n : Int)
  | pystr (s : String)
  | pytuple (xs : List PyValue)
  | pylist (xs : List PyValue)
  | pydict (kvs : List (String × PyValue))

/-- Python exceptions that the embedded code can raise. -/
inductive PyError where
  | typeError (msg : String)
  | valueError (msg : String)
  | attrError (msg : String)
  deriving Repr, DecidableEq

/-- A byte blob produced by `pickle.dumps`.  The pickle library
is an external collaborator; it is modelled as a lossless codec, so a
blob is represented by the value it encodes. -/
structure Bytes where
  data : PyValue

/-- `pickle.dumps`. -/
def pickle_dumps (v : PyValue) : Bytes := ⟨v⟩

/-- `pickle.loads`. -/
def pickle_loads (b : Bytes) : PyValue := b.data

/-- models.py lines 13-17: class JobStatus. -/
inductive JobStatus where
  | pending
  | running
  | completed
  | failed
  deriving Repr, DecidableEq

/-- models.py lines 20-29: one row of the jobs table. -/
structure JobRow where
  id : String
  function : Bytes
  result : Option Bytes
  status : JobStatus
  queue_name : String

/-- models.py lines 32-37: one row of the queues table. -/
structure QueueRow where
  name : String
  deriving Repr, DecidableEq

/-- The persistent store: the queues and jobs tables, in row order. -/
structure DB where
  queues : List QueueRow
  jobs : List JobRow

/-- `session.query(Job).filter(Job.id == id).first()`. -/
def DB.findJob (db : DB) (id : String) : Option JobRow :=
  db.jobs.find? (fun j => j.id == id)

/-- `session.query(Queue).filter(Queue.name == name).first()`. -/
def DB.findQueue (db : DB) (name : String) : Option QueueRow :=
  db.queues.find? (fun q => q.name == name)

/-- Mutating the job row with the given id in place. -/
def DB.setJob (db : DB) (id : String) (f : JobRow → JobRow) : DB :=
  { db with jobs := db.jobs.map (fun j => if j.id == id then f j else j) }

/-- The positional-parameter count of a Python callable (parameters
after `self` for methods; none of the modelled callables has defaults
or varargs). -/
structure PySig where
  fname : String
  arity : Nat
  deriving Repr, DecidableEq

/-- Python call-time arity checking: binding `nargs` positional
arguments against a signature raises TypeError unless the count
matches exactly. -/
def checkCall (sig : PySig) (nargs : Nat) : Option PyError :=
  if nargs == sig.arity then Option.none
  else some (.typeError (sig.fname ++ "() takes " ++ toString sig.arity ++
    " positional arguments but " ++ toString nargs ++ " were given"))

/-- db.py line 22: `def get_session(database_path):` — one required
positional parameter. -/
def get_session_sig : PySig := ⟨"get_session", 1⟩

/-- connections.py lines 16, 26 and 63 call `get_session()` with zero
arguments. -/
def connections_get_session_nargs : Nat := 0

/-- connections.py line 9: `def __init__(self, default_queue_name):` —
one positional parameter after self. -/
def sqlitejob_init_sig : PySig := ⟨"SQLiteJob.__init__", 1⟩

/-- worker.py line 14 calls `SQLiteJob(queue_name, settings)` — two
positional arguments. -/
def worker_sqlitejob_nargs : Nat := 2

/-- connections.py line 38: `def deserialize_job(self, job_or_data):` —
one positional parameter after self. -/
def deserialize_job_sig : PySig := ⟨"deserialize_job", 1⟩

/-- worker.py line 48 calls
`self.job_connection.deserialize_job(job_function_data, self.settings)`
— two positional arguments. -/
def worker_deserialize_nargs : Nat := 2

/-- The result of running a session body: the exception escaping it (if
any) and the state of the session when the body exited, including any
writes made before an exception was raised. -/
structure SessionRun where
  escape : Option PyError
  state : DB

/-- db.py lines 21-35: the `get_session` context manager around a body.
The `try` block yields the session to the body; the `finally` block
runs `session.commit()` and `session.close()` unconditionally, so the
writes the body made are committed whether or not the body raised. -/
def get_session_scope (body : DB → SessionRun) (db : DB) : Option PyError × DB :=
  let r := body db
  (r.escape, r.state)

/-- The session semantics the spec asks of the store collaborator:
commit when the body exits cleanly, roll every write back when the
body raises.  Stated only for comparison with `get_session_scope`. -/
def spec_session_scope (body : DB → SessionRun) (db : DB) : Option PyError × DB :=
  let r := body db
  match r.escape with
  | some e => (some e, db)
  | Option.none => (Option.none, r.state)

/-- connections.py line 13: the payload dict
the f, args and kwargs entries. -/
def payload_dict (function : String) (args : List PyValue)
    (kwargs : List (String × PyValue)) : PyValue :=
  .pydict [("f", .pystr function), ("args", .pytuple args), ("kwargs", .pydict kwargs)]

/-- connections.py lines 13-14: the encoding half of the job codec. -/
def encode_payload (function : String) (args : List PyValue)
    (kwargs : List (String × PyValue)) : Bytes :=
  pickle_dumps (payload_dict function args kwargs)

/-- connections.py lines 17-24: the body of the first enqueue session —
look the queue up by name and add the row only when it is absent. -/
def ensure_queue_body (default_queue_name : String) (db : DB) : DB :=
  match db.findQueue default_queue_name with
  | some _ => db
  | Option.none => { db with queues := db.queues ++ [⟨default_queue_name⟩] }

/-- connections.py lines 26-34: the body of the second enqueue session —
insert one new Job row with status PENDING and return its id (`newId`
stands for the uuid the store assigns). -/
def insert_job_body (default_queue_name : String) (pickled_data : Bytes)
    (newId : String) (db : DB) : String × DB :=
  let job : JobRow :=
    { id := newId, function := pickled_data, result := Option.none,
      status := .pending, queue_name := default_queue_name }
  (newId, { db with jobs := db.jobs ++ [job] })

/-- connections.py lines 16-34: the two session bodies of enqueue run in
order (queue-ensure, then job-insert), as they would execute with a
session available. -/
def enqueue_body (default_queue_name function : String) (args : List PyValue)
    (kwargs : List (String × PyValue)) (newId : String) (db : DB) : String × DB :=
  let pickled_data := encode_payload function args kwargs
  insert_job_body default_queue_name pickled_data newId (ensure_queue_body default_queue_name db)

/-- connections.py lines 12-36: `SQLiteJob.enqueue` as written.  The
payload is pickled, then `get_session()` is called with zero arguments
although `get_session` requires `database_path`, so binding the call
raises TypeError before any session is opened; the session bodies are
reached only if that call binds. -/
def SQLiteJob.enqueue (default_queue_name function : String) (args : List PyValue)
    (kwargs : List (String × PyValue)) (newId : String) (db : DB) :
    Except PyError String × DB :=
  let _pickled_data := encode_payload function args kwargs
  match checkCall get_session_sig connections_get_session_nargs with
  | some e => (.error e, db)
  | Option.none =>
    let (job_id, db2) := enqueue_body default_queue_name function args kwargs newId db
    (.ok job_id, db2)

/-- A function object obtained from `importlib` / the settings
allow-list; the business functions themselves are outside collaborators,
so a function is represented by where it lives and its declared name. -/
structure PyFunc where
  module : String
  name : String
  deriving Repr, DecidableEq

/-- The importable world seen by `importlib.import_module` +
`getattr`: module name and attribute name to the function found there,
if any. -/
def ImportEnv := String → String → Option PyFunc

/-- Python `"." in s`: character membership in the string. -/
def containsDot (s : String) : Bool := s.data.contains '.'

/-- Splitting a character list at its last dot, when one exists:
`some (before, after)` with the dot removed. -/
def rsplitDotChars : List Char → Option (List Char × List Char)
  | [] => Option.none
  | c :: cs =>
    match rsplitDotChars cs with
    | some (l, r) => some (c :: l, r)
    | Option.none => if c == '.' then some ([], cs) else Option.none

/-- Python `s.rsplit(".", 1)` for a string holding at least one dot:
split at the last dot. -/
def rsplit_dot (s : String) : String × String :=
  match rsplitDotChars s.data with
  | some (l, r) => (⟨l⟩, ⟨r⟩)
  | Option.none => ("", s)

/-- connections.py lines 38-60: `SQLiteJob.deserialize_job` — unpickle
the payload, take the "f", "args" and "kwargs" entries, require the
function path to contain a dot, split it at the last dot and resolve
the function through the import machinery. -/
def SQLiteJob.deserialize_job (env : ImportEnv) (job_or_data : Bytes) :
    Except PyError (PyFunc × List PyValue × List (String × PyValue)) :=
  match pickle_loads job_or_data with
  | .pydict kvs =>
    match List.lookup "f" kvs, List.lookup "args" kvs, List.lookup "kwargs" kvs with
    | some (.pystr function_path), some (.pytuple args), some (.pydict kwargs) =>
      if containsDot function_path then
        let module_name := (rsplit_dot function_path).1
        let function_name := (rsplit_dot function_path).2
        match env module_name function_name with
        | some function => .ok (function, args, kwargs)
        | Option.none =>
          .error (.valueError ("Cannot import function " ++ function_path))
      else
        .error (.valueError
          ("Function path must be in module.function format, got " ++ function_path))
    | _, _, _ => .error (.typeError "payload is not an encoded job invocation")
  | _ => .error (.typeError "payload is not an encoded job invocation")

/-- connections.py lines 64-67: the body of the `get_job_result`
session — look the Job row up by id, raise the not-found ValueError
when there is none, and otherwise return the stored `result` column as
is (None while the job is not completed, the raw stored bytes
otherwise; nothing is decoded). -/
def SQLiteJob.get_job_result_body (job_id : String) (db : DB) :
    Except PyError (Option Bytes) :=
  match db.findJob job_id with
  | Option.none => .error (.valueError ("Job with id " ++ job_id ++ " not found"))
  | some job => .ok job.result

/-- connections.py lines 62-67: `SQLiteJob.get_job_result` as written.
`get_session()` is again called with zero arguments, so the call raises
TypeError before the store is read; the session body is reached only
if that call binds. -/
def SQLiteJob.get_job_result (job_id : String) (db : DB) :
    Except PyError (Option Bytes) :=
  match checkCall get_session_sig connections_get_session_nargs with
  | some e => .error e
  | Option.none => SQLiteJob.get_job_result_body job_id db

/-- settings.py lines 4-8: worker settings.  `functions` is the
allow-list class attribute a subclass declares; `Option.none` models a
subclass that does not declare the attribute at all (so
`hasattr(self, ...)` is false). -/
structure WorkerSettings where
  database_path : String
  functions : Option (List PyFunc)
  deriving Repr, DecidableEq

/-- settings.py lines 5-8: `WorkerSettings.__init__` — store the
database path, then raise ValueError when the `functions` attribute is
not defined.  The check is `hasattr` only, so a declared-but-empty
allow-list passes. -/
def WorkerSettings.init_check (functions : Option (List PyFunc))
    (database_path : String) : Except PyError WorkerSettings :=
  match functions with
  | Option.none =>
    .error (.valueError "WorkerSettings subclass must define functions class attribute")
  | some _ => .ok { database_path := database_path, functions := functions }

/-- settings.py lines 10-14: `WorkerSettings.get_function` — build the
dict from declared function names to functions (a later duplicate name
wins, as in a dict comprehension) and raise ValueError when the
requested name is not a key. -/
def WorkerSettings.get_function (s : WorkerSettings) (name : String) :
    Except PyError PyFunc :=
  match s.functions with
  | Option.none => .error (.attrError "functions")
  | some funcs =>
    match funcs.reverse.find? (fun f => f.name == name) with
    | some f => .ok f
    | Option.none =>
      .error (.valueError ("Function " ++ name ++ " not found in worker settings"))

/-- worker.py lines 10-14: the fields a Worker instance would carry. -/
structure Worker where
  queue_name : String
  settings : WorkerSettings
  job_connection_default_queue_name : String
  deriving Repr, DecidableEq

/-- worker.py lines 11-14: `Worker.__init__` — it calls
`SQLiteJob(queue_name, settings)`, two positional arguments against the
one-parameter `SQLiteJob.__init__`, so construction raises TypeError;
the instance is produced only if that call binds. -/
def Worker.init (queue_name : String) (settings : WorkerSettings) :
    Except PyError Worker :=
  match checkCall sqlitejob_init_sig worker_sqlitejob_nargs with
  | some e => .error e
  | Option.none => .ok ⟨queue_name, settings, queue_name⟩

/-- worker.py lines 24-36: `Worker._get_job_id` — select the first Job
row with status PENDING and this queue name; None when there is no
such row. -/
def Worker.get_job_id (queue_name : String) (db : DB) : Option String :=
  (db.jobs.find? (fun j => j.status == .pending && j.queue_name == queue_name)).map
    (fun j => j.id)

/-- worker.py lines 40-45: the first session of `Worker._process_job` —
fetch the Job row by id and set `status = RUNNING` with no check of the
prior status, returning the payload read while in the session.  A
missing row raises AttributeError (the code assigns to `job.status`
without a None check); the commit happens at session exit either way. -/
def Worker.claim_step (job_id : String) (db : DB) : Except PyError (DB × Bytes) :=
  match db.findJob job_id with
  | Option.none => .error (.attrError "NoneType object has no attribute status")
  | some job =>
    .ok (db.setJob job_id (fun j => { j with status := .running }), job.function)

/-- worker.py lines 53-58: the last session of `Worker._process_job` —
re-fetch the Job row by id, set `status = COMPLETED` and store the
pickled return value into `result`. -/
def Worker.complete_step (job_id : String) (result : PyValue) (db : DB) :
    Except PyError DB :=
  match db.findJob job_id with
  | Option.none => .error (.attrError "NoneType object has no attribute status")
  | some _ =>
    .ok (db.setJob job_id (fun j =>
      { j with status := .completed, result := some (pickle_dumps result) }))

/-- Invoking a business function on decoded args and kwargs:
its return value, or the exception it raises. -/
def ExecEnv := PyFunc → List PyValue → List (String × PyValue) → Except PyError PyValue

/-- worker.py lines 38-58: `Worker._process_job` — claim the job
(status to RUNNING, committed), then call `deserialize_job` with two
positional arguments (`job_function_data, self.settings`) against its
one-parameter signature, which raises TypeError before the payload is
decoded; only if that call bound would the payload be decoded, the
function executed outside any session, and the completion session run.
No step of the method catches an exception, so the first error
propagates out with the store as the already-committed sessions left
it. -/
def Worker.process_job (env : ImportEnv) (exec : ExecEnv) (job_id : String)
    (db : DB) : Option PyError × DB :=
  match Worker.claim_step job_id db with
  | .error e => (some e, db)
  | .ok (db1, job_function_data) =>
    match checkCall deserialize_job_sig worker_deserialize_nargs with
    | some e => (some e, db1)
    | Option.none =>
      match SQLiteJob.deserialize_job env job_function_data with
      | .error e => (some e, db1)
      | .ok (function, args, kwargs) =>
        match exec function args kwargs with
        | .error e => (some e, db1)
        | .ok result =>
          match Worker.complete_step job_id result db1 with
          | .error e => (some e, db1)
          | .ok db2 => (Option.none, db2)

/-- Whether an exception is of the ValueError class (the error the spec
calls NotFoundError is raised as a ValueError in this code base). -/
def PyError.isValueError : PyError → Bool
  | .valueError _ => true
  | _ => false

/-- The TypeError message produced when `get_session()` is called with
no argument. -/
def get_session_noargs_msg : String :=
  "get_session() takes 1 positional arguments but 0 were given"

/-- The TypeError message produced when `SQLiteJob.__init__` receives
two positional arguments. -/
def sqlitejob_init_twoargs_msg : String :=
  "SQLiteJob.__init__() takes 1 positional arguments but 2 were given"

/-- The TypeError message produced when `deserialize_job` receives two
positional arguments. -/
def deserialize_twoargs_msg : String :=
  "deserialize_job() takes 1 positional arguments but 2 were given"

/-- An empty store. -/
def dbEmpty : DB := { queues := [], jobs := [] }

/-- The encoded payload of `add(1, 2)` under the dynamic-import naming
used by `deserialize_job`. -/
def payload_add12 : Bytes := encode_payload "example.add" [.pyint 1, .pyint 2] []

/-- A freshly enqueued job row. -/
def jobPending : JobRow :=
  { id := "j1", function := payload_add12, result := Option.none,
    status := .pending, queue_name := "default" }

/-- A store holding one PENDING job on queue "default". -/
def dbPending : DB := { queues := [⟨"default"⟩], jobs := [jobPending] }

/-- The same job after the claim step ran. -/
def jobRunning : JobRow := { jobPending with status := .running }

/-- The store after the claim step ran on `dbPending`. -/
def dbRunning : DB := { queues := [⟨"default"⟩], jobs := [jobRunning] }

/-- The same job after the complete step stored the result `3`. -/
def jobCompleted : JobRow :=
  { jobPending with status := .completed, result := some (pickle_dumps (.pyint 3)) }

/-- A store holding one COMPLETED job with its stored result. -/
def dbCompleted : DB := { queues := [⟨"default"⟩], jobs := [jobCompleted] }

/-- The completed job after a second claim step overwrote its status. -/
def jobReclaimed : JobRow := { jobCompleted with status := .running }

/-- The store after a second claim step ran on `dbCompleted`. -/
def dbReclaimed : DB := { queues := [⟨"default"⟩], jobs := [jobReclaimed] }

/-- An import environment in which module "example" declares "add". -/
def envExample : ImportEnv := fun module_name function_name =>
  if module_name == "example" && function_name == "add" then some ⟨"example", "add"⟩
  else Option.none

/-- C9: for every function name, args and kwargs, `SQLiteJob.enqueue`
raises TypeError before reading or writing the store (its zero-argument
`get_session()` call cannot bind against the required `database_path`
parameter), so no Queue row and no Job row is ever inserted and the
store is unchanged; the same missing-argument call makes
`get_job_result` raise TypeError for every job id. -/
theorem C9_enqueue_and_get_job_result_always_raise :
    (∀ default_queue_name function args kwargs newId db,
      SQLiteJob.enqueue default_queue_name function args kwargs newId db =
        (.error (.typeError get_session_noargs_msg), db)) ∧
    (∀ job_id db, SQLiteJob.get_job_result job_id db =
      .error (.typeError get_session_noargs_msg)) :=
  ⟨fun _ _ _ _ _ _ => rfl, fun _ _ => rfl⟩

/-- C10: for every queue name and settings value, constructing a Worker
raises TypeError, because `Worker.__init__` passes two positional
arguments to `SQLiteJob` whose `__init__` accepts only
`default_queue_name`; construction never returns an instance. -/
theorem C10_worker_init_always_raises (queue_name : String)
    (settings : WorkerSettings) :
    Worker.init queue_name settings =
      .error (.typeError sqlitejob_init_twoargs_msg) :=
  rfl

/-- The status of the job row with the given id. -/
def jobStatus (db : DB) (id : String) : Option JobStatus :=
  (db.findJob id).map (fun j => j.status)

/-- The stored result of the job row with the given id. -/
def jobResult (db : DB) (id : String) : Option (Option Bytes) :=
  (db.findJob id).map (fun j => j.result)

/-- C1: evaluation of the claim step at the claimed failing input.  The
claim requires a job to leave PENDING only when it is PENDING at the
moment of the update, so claiming a COMPLETED job must not succeed and
must not change its status, and of several claimants exactly one may
succeed.  The code instead fetches the row and assigns
`status = RUNNING` with no status condition: claiming the COMPLETED job
j1 succeeds and overwrites its status to RUNNING, and a repeated claim
on the result succeeds again, so every racing claimant succeeds. -/
theorem C1_claim_step_ignores_prior_status :
    Worker.claim_step "j1" dbCompleted = .ok (dbReclaimed, payload_add12) ∧
    jobStatus dbCompleted "j1" = some .completed ∧
    jobStatus dbReclaimed "j1" = some .running ∧
    Worker.claim_step "j1" dbReclaimed = .ok (dbReclaimed, payload_add12) :=
  ⟨rfl, rfl, rfl, rfl⟩

/-- C5: evaluation of a reachable operation sequence at which a job
status regresses.  Enqueue creates j1 PENDING, the claim step moves it
to RUNNING, the complete step moves it to COMPLETED, and a second claim
step (a racing worker that polled j1 while it was still PENDING) moves
it back to RUNNING: the status sequence pending, running, completed,
running is not a subsequence of PENDING, RUNNING, COMPLETED, and the
job leaves the terminal COMPLETED state. -/
theorem C5_status_regresses_out_of_completed :
    enqueue_body "default" "example.add" [.pyint 1, .pyint 2] [] "j1" dbEmpty =
      ("j1", dbPending) ∧
    jobStatus dbPending "j1" = some .pending ∧
    Worker.claim_step "j1" dbPending = .ok (dbRunning, payload_add12) ∧
    jobStatus dbRunning "j1" = some .running ∧
    Worker.complete_step "j1" (.pyint 3) dbRunning = .ok dbCompleted ∧
    jobStatus dbCompleted "j1" = some .completed ∧
    Worker.claim_step "j1" dbCompleted = .ok (dbReclaimed, payload_add12) ∧
    jobStatus dbReclaimed "j1" = some .running :=
  ⟨rfl, rfl, rfl, rfl, rfl, rfl, rfl, rfl⟩

/-- C6: evaluation of the processing step on a claimed job, for every
execution environment.  The claim says a job whose invoked function
raises leaves the worker with an uncaught exception and the job stuck
RUNNING.  The code never reaches the invocation: after the claim
session commits RUNNING, the call
`deserialize_job(job_function_data, self.settings)` passes two
positional arguments to the one-parameter method and raises TypeError,
whatever the business function would do; the job is left RUNNING with
no result written, the exception propagates uncaught, and the poll
step never selects the RUNNING job again, so it is never retried. -/
theorem C6_process_job_raises_before_execute (exec : ExecEnv) :
    Worker.process_job envExample exec "j1" dbPending =
      (some (.typeError deserialize_twoargs_msg), dbRunning) ∧
    jobStatus dbRunning "j1" = some .running ∧
    jobResult dbRunning "j1" = some Option.none ∧
    Worker.get_job_id "default" dbRunning = Option.none :=
  ⟨rfl, rfl, rfl, rfl⟩

/-- C4: evaluation of enqueue at the claimed failing input.  The claim
says enqueue ensures the Queue row, inserts exactly one PENDING Job row
and returns the new id; the code raises TypeError at its first
zero-argument `get_session()` call, returns no id, and leaves the store
without any Queue or Job row. -/
theorem C4_enqueue_inserts_nothing :
    SQLiteJob.enqueue "default" "example.add" [.pyint 1, .pyint 2] [] "j1" dbEmpty =
      (.error (.typeError get_session_noargs_msg), dbEmpty) ∧
    dbEmpty.queues = [] ∧
    dbEmpty.jobs = [] :=
  ⟨rfl, rfl, rfl⟩

/-- C2 counterexample: in the empty store no Job row has id
"nonexistent-id", yet `get_job_result` does not raise the not-found
ValueError — it raises TypeError from its zero-argument `get_session()`
call, refuting the claimed equivalence. -/
theorem C2_counterexample_not_notfound :
    SQLiteJob.get_job_result "nonexistent-id" dbEmpty =
      .error (.typeError get_session_noargs_msg) ∧
    (PyError.typeError get_session_noargs_msg).isValueError = false :=
  ⟨rfl, rfl⟩

/-- C2 amended: `get_job_result` as written raises TypeError for every
job id before touching the store; the session body it wraps raises the
not-found ValueError exactly when no Job row has the id, and otherwise
returns the stored `result` column as is — None (the absence marker)
while the job has no stored result, and the stored result bytes without
decoding them once a result was written. -/
theorem C2_result_access_described :
    (∀ job_id db, SQLiteJob.get_job_result job_id db =
        .error (.typeError get_session_noargs_msg)) ∧
    (∀ job_id db, db.findJob job_id = Option.none ↔
        SQLiteJob.get_job_result_body job_id db =
          .error (.valueError ("Job with id " ++ job_id ++ " not found"))) ∧
    (∀ job_id db job, db.findJob job_id = some job →
        SQLiteJob.get_job_result_body job_id db = .ok job.result) := by
  refine ⟨fun _ _ => rfl, fun job_id db => ?_, fun job_id db job h => ?_⟩
  · constructor
    · intro h
      simp [SQLiteJob.get_job_result_body, h]
    · intro h
      cases hf : db.findJob job_id with
      | none => rfl
      | some job => simp [SQLiteJob.get_job_result_body, hf] at h
  · simp [SQLiteJob.get_job_result_body, h]

/-- C2 witness: the amended description applied at concrete stores — a
missing id yields the not-found ValueError from the session body, a
PENDING job yields the absence marker None, and a COMPLETED job yields
the raw stored bytes of its result. -/
theorem C2_result_access_described_witness :
    SQLiteJob.get_job_result_body "nonexistent-id" dbEmpty =
      .error (.valueError ("Job with id " ++ "nonexistent-id" ++ " not found")) ∧
    SQLiteJob.get_job_result_body "j1" dbPending = .ok jobPending.result ∧
    SQLiteJob.get_job_result_body "j1" dbCompleted = .ok jobCompleted.result :=
  ⟨(C2_result_access_described.2.1 "nonexistent-id" dbEmpty).mp rfl,
   C2_result_access_described.2.2 "j1" dbPending jobPending rfl,
   C2_result_access_described.2.2 "j1" dbCompleted jobCompleted rfl⟩

/-- C3 counterexample: the round trip fails on the function name "add"
(the very name example.py enqueues) with empty args and kwargs — the
name is a plain string in the supported domain, yet decoding the
encoded payload raises ValueError at the dot-format check instead of
reproducing the triple. -/
theorem C3_counterexample_dotless_name :
    SQLiteJob.deserialize_job envExample (encode_payload "add" [] []) =
      .error (.valueError
        ("Function path must be in module.function format, got " ++ "add")) :=
  rfl

/-- C3 amended: the codec round trip holds only on function names that
contain a dot and resolve through the import machinery: for every such
(function_name, args, kwargs), including empty args and kwargs,
decoding the encoded payload yields the resolved function together with
exactly the original positional and keyword arguments; the function
name itself is reproduced only in resolved form, and names without a
dot, or that fail to import, make decoding raise ValueError instead. -/
theorem C3_roundtrip_on_resolvable_names (env : ImportEnv)
    (function_path : String) (args : List PyValue)
    (kwargs : List (String × PyValue)) (f : PyFunc)
    (hdot : containsDot function_path = true)
    (henv : env (rsplit_dot function_path).1 (rsplit_dot function_path).2 = some f) :
    SQLiteJob.deserialize_job env (encode_payload function_path args kwargs) =
      .ok (f, args, kwargs) := by
  simp [SQLiteJob.deserialize_job, encode_payload, payload_dict, pickle_dumps,
    pickle_loads, List.lookup, hdot, henv]

/-- C3 witness: the amended round trip applied at a concrete dotted
name, with nonempty and with empty args and kwargs. -/
theorem C3_roundtrip_on_resolvable_names_witness :
    SQLiteJob.deserialize_job envExample
        (encode_payload "example.add" [.pyint 1, .pyint 2] [("delay", .pyint 2)]) =
      .ok (⟨"example", "add"⟩, [.pyint 1, .pyint 2], [("delay", .pyint 2)]) ∧
    SQLiteJob.deserialize_job envExample (encode_payload "example.add" [] []) =
      .ok (⟨"example", "add"⟩, [], []) :=
  ⟨C3_roundtrip_on_resolvable_names envExample "example.add"
      [.pyint 1, .pyint 2] [("delay", .pyint 2)] ⟨"example", "add"⟩ rfl rfl,
   C3_roundtrip_on_resolvable_names envExample "example.add" [] []
      ⟨"example", "add"⟩ rfl rfl⟩

/-- A session body that inserts a queue row and then raises, as in the
exception test of test_db.py. -/
def raising_body : DB → SessionRun := fun db =>
  { escape := some (.valueError "Test exception"),
    state := { db with queues := db.queues ++ [⟨"test_exception_queue"⟩] } }

/-- A session body that inserts a queue row and exits cleanly. -/
def clean_body : DB → SessionRun := fun db =>
  { escape := Option.none,
    state := { db with queues := db.queues ++ [⟨"test_commit_queue"⟩] } }

/-- C7 counterexample: a session whose body inserts a queue row and
then raises leaves the store with that row — the `finally` block
commits it — while the rollback-on-error semantics the claim requires
would leave the store unchanged. -/
theorem C7_counterexample_commit_on_error :
    (get_session_scope raising_body dbEmpty).1 = some (.valueError "Test exception") ∧
    (get_session_scope raising_body dbEmpty).2.queues = [⟨"test_exception_queue"⟩] ∧
    (spec_session_scope raising_body dbEmpty).2.queues = [] :=
  ⟨rfl, rfl, rfl⟩

/-- C7 amended: every scoped store session commits the writes its body
made, both when the body exits cleanly and when it raises: the final
store is always the body state (so an error in the body does not roll
its writes back), and on a clean exit the behavior agrees with the
commit-on-clean-exit contract. -/
theorem C7_session_commits_unconditionally (body : DB → SessionRun) (db : DB) :
    (get_session_scope body db).2 = (body db).state ∧
    ((body db).escape = Option.none →
      get_session_scope body db = spec_session_scope body db) := by
  refine ⟨rfl, fun h => ?_⟩
  simp [get_session_scope, spec_session_scope, h]

/-- C7 witness: the amended statement applied to a concrete body with a
clean exit on the empty store. -/
theorem C7_session_commits_unconditionally_witness :
    (get_session_scope clean_body dbEmpty).2 = (clean_body dbEmpty).state ∧
    get_session_scope clean_body dbEmpty = spec_session_scope clean_body dbEmpty :=
  ⟨(C7_session_commits_unconditionally clean_body dbEmpty).1,
   (C7_session_commits_unconditionally clean_body dbEmpty).2 rfl⟩

/-- The ValueError message of `WorkerSettings.__init__`. -/
def settings_missing_functions_msg : String :=
  "WorkerSettings subclass must define functions class attribute"

/-- A settings object whose allow-list declares the single function
add from module example. -/
def settingsExample : WorkerSettings :=
  { database_path := "test.db", functions := some [⟨"example", "add"⟩] }

/-- C8 counterexample: a settings subclass that declares an empty
allow-list is accepted at construction time — the `hasattr` check only
rejects an absent attribute — refuting the claim that construction
fails fast whenever the allow-list is empty or unset. -/
theorem C8_counterexample_empty_allowlist_accepted :
    WorkerSettings.init_check (some []) "test.db" =
      .ok { database_path := "test.db", functions := some [] } :=
  rfl

/-- C8 amended: constructing worker settings fails fast exactly when
the allow-list attribute is unset (an empty allow-list is accepted),
and for constructed settings resolving a function name raises the
ResolutionError ValueError exactly when the requested name is absent
from the declared names of the allow-list. -/
theorem C8_registry_resolution (functions : Option (List PyFunc))
    (database_path name : String) :
    (WorkerSettings.init_check functions database_path =
        .error (.valueError settings_missing_functions_msg) ↔
      functions = Option.none) ∧
    (∀ s, WorkerSettings.init_check functions database_path = .ok s →
      (s.get_function name =
          .error (.valueError ("Function " ++ name ++ " not found in worker settings")) ↔
        name ∉ (functions.getD []).map PyFunc.name)) := by
  cases functions with
  | none =>
    refine ⟨⟨fun _ => rfl, fun _ => rfl⟩, fun s h => ?_⟩
    exact absurd h (by simp [WorkerSettings.init_check])
  | some fs =>
    constructor
    · constructor
      · intro h
        exact absurd h (by simp [WorkerSettings.init_check])
      · intro h
        exact absurd h (by simp)
    · intro s h
      simp only [WorkerSettings.init_check, Except.ok.injEq] at h
      subst h
      simp only [WorkerSettings.get_function, Option.getD]
      cases hf : fs.reverse.find? (fun f => f.name == name) with
      | none =>
        simp only [hf]
        constructor
        · intro _ hmem
          rcases List.mem_map.mp hmem with ⟨f, hfmem, hfname⟩
          have hnp := List.find?_eq_none.mp hf f (List.mem_reverse.mpr hfmem)
          simp [hfname] at hnp
        · intro _
          trivial
      | some f =>
        have hp := List.find?_some hf
        have hmem : f ∈ fs := List.mem_reverse.mp (List.mem_of_find?_eq_some hf)
        have hfname : f.name = name := by simpa using hp
        simp only [hf]
        constructor
        · intro h2
          exact absurd h2 (by simp)
        · intro h2
          exact absurd (List.mem_map.mpr ⟨f, hmem, hfname⟩) h2

/-- C8 witness: the amended statement applied at concrete inputs — an
unset allow-list is rejected at construction, and resolving a name
missing from a declared allow-list raises the ResolutionError
ValueError. -/
theorem C8_registry_resolution_witness :
    WorkerSettings.init_check Option.none "test.db" =
      .error (.valueError settings_missing_functions_msg) ∧
    WorkerSettings.get_function settingsExample "missing" =
      .error (.valueError ("Function " ++ "missing" ++ " not found in worker settings")) :=
  ⟨(C8_registry_resolution Option.none "test.db" "missing").1.mpr rfl,
   ((C8_registry_resolution (some [⟨"example", "add"⟩]) "test.db" "missing").2
      settingsExample rfl).mpr (by decide)⟩
